import Mathlib

/-!
Shallow embedding of the Hydra-ROS reconstruction visualizer
(`src/hydra_ros/src/visualizer/reconstruction_visualizer.cpp`) and of the
keyed publisher registry declared in `src/unnamed/part_000`
(`hydra_ros/visualizer/object_visualizer.h`), together with proofs about
the incremental-synchronization properties of the code.

Machine integers of the source (marker ids, counts, timestamps) are
modelled as `Int`/`Nat`; ROS messages are modelled by plain structures
carrying the fields the visualizer reads or writes.  External geometry
builders (`makeEsdfMarker`, `makePlaceSpheres`, `makeGvdGraphMarkers`,
`showGvdClusters`, ...) are outside this repository: their outputs are
taken as parameters, bundled in `BuilderOutputs`.
-/

namespace hydra

/-- Embeds `std_msgs::Header`: a frame id and a stamp in nanoseconds.
A default-constructed ROS header has an empty frame and a zero stamp. -/
structure Header where
  frame_id : String := ""
  stamp : Nat := 0
deriving Repr, DecidableEq

/-- Embeds `visualization_msgs::Marker::ADD` / `DELETE` actions. -/
inductive MarkerAction where
  | ADD
  | DELETE
deriving Repr, DecidableEq

/-- Embeds the fields of `visualization_msgs::Marker` that the visualizer
reads or writes: header, namespace, id, action, and the size of the point
payload (the geometry itself is opaque to the synchronization logic).
A default-constructed marker has action `ADD`, id 0 and a default header. -/
structure Marker where
  header : Header := {}
  ns : String := ""
  id : Int := 0
  action : MarkerAction := .ADD
  numPoints : Nat := 0
deriving Repr, DecidableEq

/-- One transport send: the channel (topic) name and the marker payload.
Single-marker channels are modelled as singleton payloads. -/
structure Send where
  channel : String
  payload : List Marker
deriving Repr, DecidableEq

/-- Modelled from the spec: `MarkerGroupPub::publish` (the PublishGate) is
declared outside `src/`; only its callers appear there.  The producer builds
a candidate payload and returns whether it is worth emitting; the gate
forwards the built payload to the channel only when the producer returns
`true`, so each call yields zero or one transport sends. -/
def publishGate (channel : String) (producer : Unit → List Marker × Bool) :
    List Send :=
  let r := producer ()
  if r.2 then [⟨channel, r.1⟩] else []

/-- Modelled from the spec: stateful form of the PublishGate, used to state
that the producer runs exactly once, synchronously, per `publish` call.  The
producer may read and update visualizer state while it builds the payload. -/
def publishGateSt {σ : Type} (channel : String)
    (producer : σ → σ × List Marker × Bool) (s : σ) : σ × List Send :=
  let r := producer s
  (r.1, if r.2.2 then [⟨channel, r.2.1⟩] else [])

/-- Modelled from the spec: one output channel of the keyed registry,
carrying the semantic label it was created for and the transport topic name
derived from that label by stringification. -/
structure Channel where
  label : Nat
  topic : String
deriving Repr, DecidableEq

/-- Modelled from the spec: `SemanticRosPublishers<uint32_t, Marker>`
(`ObjectVisualizer::ObjectCloudPub` in `src/unnamed/part_000`), the
ChannelRegistry: a keyed collection of lazily created output channels. -/
structure SemanticRosPublishers where
  pubs : List (Nat × Channel)
deriving Repr, DecidableEq

/-- Lookup of a key in the registry cache. -/
def findChannel : List (Nat × Channel) → Nat → Option Channel
  | [], _ => none
  | p :: rest, k => if p.1 = k then some p.2 else findChannel rest k

/-- Modelled from the spec: `get_or_create(key)`.  The first call for a key
constructs and caches a channel whose topic stringifies the label;
subsequent calls return the cached channel.  No eviction ever happens. -/
def getOrCreate (r : SemanticRosPublishers) (k : Nat) :
    SemanticRosPublishers × Channel :=
  match findChannel r.pubs k with
  | some c => (r, c)
  | none =>
    let c : Channel := ⟨k, toString k⟩
    (⟨r.pubs ++ [(k, c)]⟩, c)

/-- A sequence of `get_or_create` calls, keeping only the registry. -/
def runRegistry (r : SemanticRosPublishers) (ks : List Nat) :
    SemanticRosPublishers :=
  ks.foldl (fun acc k => (getOrCreate acc k).1) r

/-- Every cached channel's label matches its key (holds for every registry
reachable from the empty one). -/
def WellFormed (r : SemanticRosPublishers) : Prop :=
  ∀ p ∈ r.pubs, (p.2).label = p.1

/-- Modelled from the spec: `makeDeleteMarker(header, id, ns)` (declared in
`gvd_visualization_utilities.h`, outside `src/`): a deletion directive for
one id of a namespace, carrying the tick header it is given. -/
def makeDeleteMarker (header : Header) (id : Int) (ns : String) : Marker :=
  { header := header, ns := ns, id := id, action := .DELETE }

/-- Modelled from the spec: `makeTextMarker` (outside `src/`), the external
text-label builder: one labelled element per scene-graph node, with the
node-derived marker id, stamped with the tick header it is given. -/
def makeTextMarker (header : Header) (ns : String) (nodeId : Int) : Marker :=
  { header := header, ns := ns, id := nodeId, action := .ADD }

/-- Embeds the subset of `ReconstructionVisualizerConfig` (plus
`config_.graph_layer.use_label`) that the synchronization logic reads. -/
structure ReconstructionVisualizerConfig where
  world_frame : String := "world"
  topology_marker_ns : String := "topology"
  show_block_outlines : Bool := false
  use_label : Bool := true
deriving Repr, DecidableEq

/-- Embeds the mutable per-channel prior state of `ReconstructionVisualizer`:
`previous_spheres_`, `previous_labels_`, `published_gvd_graph_` and
`published_gvd_clusters_`. -/
structure VisualizerState where
  previous_spheres : Nat := 0
  previous_labels : Finset Int := ∅
  published_gvd_graph : Bool := false
  published_gvd_clusters : Bool := false
deriving DecidableEq

/-- Embeds the parts of `places::GraphExtractorInterface` the visualizer
reads: the scene-graph layer (as the list of node-derived text-marker ids
and whether the edge set is empty), whether the GVD graph is empty, and
whether the dynamic cast to `places::CompressionGraphExtractor` succeeds. -/
structure GraphExtractorInterface where
  graphNodes : List Int := []
  graphEdgesEmpty : Bool := true
  gvdGraphEmpty : Bool := true
  isCompression : Bool := false
deriving Repr, DecidableEq

/-- Outputs of the external geometry builders consumed by one tick.  The
builders are pure functions of the map/graph snapshot and the style
configuration; the visualizer only moves their outputs around. -/
structure BuilderOutputs where
  esdfMarker : Marker := {}
  gvdMarker : Marker := {}
  surfaceMarker : Marker := {}
  blocksMarker : Marker := {}
  nodeMarker : Marker := {}
  edgeMarker : Marker := {}
  spheres : List Marker := []
  freespaceNodeMarker : Marker := {}
  freespaceEdgeMarker : Marker := {}
  gvdGraphMarkers : List Marker := []
  clusterMarkers : List Marker := []
deriving Repr, DecidableEq

/-- Embeds `markers.at(i).header = header`: assign the header of the marker
at index `i`, or fail (`std::out_of_range`) when `i` is out of bounds. -/
def assignHeaderAt (ms : List Marker) (i : Nat) (h : Header) :
    Option (List Marker) :=
  if hlt : i < ms.length then
    some (ms.set i { ms[i] with header := h })
  else
    none

/-- Embeds `ReconstructionVisualizer::visualizeGvd`: three gated
single-marker channels, each sent only when its built slice has points. -/
def visualizeGvd (header : Header) (b : BuilderOutputs) : List Send :=
  publishGate "esdf_viz" (fun _ =>
    let msg : Marker := { b.esdfMarker with header := header, ns := "gvd_visualizer" }
    ([msg], msg.numPoints != 0)) ++
  publishGate "gvd_viz" (fun _ =>
    let msg : Marker := { b.gvdMarker with header := header, ns := "gvd_visualizer" }
    ([msg], msg.numPoints != 0)) ++
  publishGate "surface_viz" (fun _ =>
    let msg : Marker := { b.surfaceMarker with header := header, ns := "gvd_visualizer" }
    ([msg], msg.numPoints != 0))

/-- Embeds `ReconstructionVisualizer::visualizeBlocks`. -/
def visualizeBlocks (header : Header) (b : BuilderOutputs) : List Send :=
  publishGate "voxel_block_viz" (fun _ =>
    ([{ b.blocksMarker with header := header, ns := "topology_server_blocks" }],
     true))

/-- Embeds `ReconstructionVisualizer::visualizeError`: the producer builds
the error marker, stamps it, and reports it worth sending only when some
voxel exceeded the threshold. -/
def visualizeError (cfg : ReconstructionVisualizerConfig) (timestamp_ns : Nat)
    (errorMarker : Marker) : List Send :=
  publishGate "error_viz" (fun _ =>
    let msg : Marker :=
      { errorMarker with header := ⟨cfg.world_frame, timestamp_ns⟩ }
    ([msg], msg.numPoints != 0))

/-- Embeds `ReconstructionVisualizer::publishFreespace`: a delete marker is
built for every id below the remembered `previous_spheres_` count (with a
default-constructed header), the remembered count becomes the new sphere
count, and the delete batch, the spheres and the freespace graph are sent
unconditionally. -/
def publishFreespace (cfg : ReconstructionVisualizerConfig) (header : Header)
    (b : BuilderOutputs) (edgesEmpty : Bool) (previous_spheres : Nat) :
    Nat × List Send :=
  let label_ns := cfg.topology_marker_ns ++ "_freespace"
  let delete_markers : List Marker := (List.range previous_spheres).map fun id =>
    { action := .DELETE, id := (id : Int), ns := label_ns }
  let previous' := b.spheres.length
  let s1 := publishGate "freespace_viz" (fun _ => (delete_markers, true))
  let s2 := publishGate "freespace_viz" (fun _ => (b.spheres, true))
  let s3 := publishGate "freespace_graph_viz" (fun _ =>
    ([b.freespaceNodeMarker] ++
      (if edgesEmpty then [] else [b.freespaceEdgeMarker]), true))
  (previous', s1 ++ s2 ++ s3)

/-- Embeds `ReconstructionVisualizer::publishGraphLabels`: nothing happens
unless labels are enabled; otherwise one text marker is built per node, the
current id set is collected, the ids of the remembered `previous_labels_`
absent from it become delete markers (with a default-constructed header,
iterated in increasing id order as `std::set` does), the remembered set
becomes the current set, and the delete batch and the labels are sent
unconditionally. -/
def publishGraphLabels (cfg : ReconstructionVisualizerConfig) (header : Header)
    (graphNodes : List Int) (previous_labels : Finset Int) :
    Finset Int × List Send :=
  if !cfg.use_label then
    (previous_labels, [])
  else
    let label_ns := cfg.topology_marker_ns ++ "_labels"
    let labels := graphNodes.map (makeTextMarker header label_ns)
    let current_ids : Finset Int := (labels.map (·.id)).toFinset
    let ids_to_delete := previous_labels.filter (fun p => p ∉ current_ids)
    let delete_markers : List Marker :=
      (ids_to_delete.sort (· ≤ ·)).map fun i =>
        { action := .DELETE, id := i, ns := label_ns }
    (current_ids,
      [⟨"graph_label_viz", delete_markers⟩, ⟨"graph_label_viz", labels⟩])

/-- Embeds `ReconstructionVisualizer::visualizeGraph`: an empty node set is
logged ("visualizing empty graph!") and the call returns before any channel
is touched; otherwise the graph markers are sent and freespace and labels
are published. -/
def visualizeGraph (cfg : ReconstructionVisualizerConfig) (header : Header)
    (b : BuilderOutputs) (e : GraphExtractorInterface) (st : VisualizerState) :
    VisualizerState × List Send :=
  if e.graphNodes.isEmpty then
    (st, [])
  else
    let s1 := publishGate "graph_viz" (fun _ =>
      ([b.nodeMarker] ++ (if e.graphEdgesEmpty then [] else [b.edgeMarker]),
       true))
    let fs := publishFreespace cfg header b e.graphEdgesEmpty st.previous_spheres
    let gl := publishGraphLabels cfg header e.graphNodes st.previous_labels
    ({ st with previous_spheres := fs.1, previous_labels := gl.1 },
      s1 ++ fs.2 ++ gl.2)

/-- Embeds `ReconstructionVisualizer::visualizeGvdGraph`: when the GVD graph
is empty and `published_gvd_graph_` is set, the flag is cleared and two
delete markers are sent; otherwise the built markers are sent after their
first two entries are stamped (`markers.at(0)` / `markers.at(1)`), unless
the builder produced nothing, in which case the send is skipped. -/
def visualizeGvdGraph (topology_marker_ns : String) (header : Header)
    (graphEmpty : Bool) (built : List Marker) (published_gvd_graph : Bool) :
    Option (Bool × List Send) :=
  let ns := topology_marker_ns ++ "_gvd_graph"
  if graphEmpty && published_gvd_graph then
    some (false,
      [⟨"gvd_graph_viz",
        [makeDeleteMarker header 0 (ns ++ "_nodes"),
         makeDeleteMarker header 0 (ns ++ "_edges")]⟩])
  else if built.isEmpty then
    some (published_gvd_graph, [])
  else
    (assignHeaderAt built 0 header).bind fun m1 =>
    (assignHeaderAt m1 1 header).map fun m2 =>
    (true, [⟨"gvd_graph_viz", m2⟩])

/-- Embeds the `gvd_cluster_viz` callback of
`ReconstructionVisualizer::visualize` (lines 119-144).  When the compressed
GVD graph is empty and `published_gvd_clusters_` is set, two delete markers
are sent; the source clears `published_gvd_graph_` in this branch
(reconstruction_visualizer.cpp:123), leaving `published_gvd_clusters_`
untouched.  Otherwise the cluster markers are sent after their first two
entries are stamped, unless the builder produced nothing. -/
def visualizeGvdClusters (header : Header) (gvdGraphEmpty : Bool)
    (clusterMarkers : List Marker) (st : VisualizerState) :
    Option (VisualizerState × List Send) :=
  let ns := "gvd_cluster_graph"
  if gvdGraphEmpty && st.published_gvd_clusters then
    some ({ st with published_gvd_graph := false },
      [⟨"gvd_cluster_viz",
        [makeDeleteMarker header 0 (ns ++ "_nodes"),
         makeDeleteMarker header 0 (ns ++ "_edges")]⟩])
  else if clusterMarkers.isEmpty then
    some (st, [])
  else
    (assignHeaderAt clusterMarkers 0 header).bind fun m1 =>
    (assignHeaderAt m1 1 header).map fun m2 =>
    ({ st with published_gvd_clusters := true }, [⟨"gvd_cluster_viz", m2⟩])

/-- Embeds `ReconstructionVisualizer::visualize`: one tick.  The header is
built once from the world frame and the timestamp; the GVD slices are
published, then (when an extractor is present) the graph and GVD-graph
channels, then the block outlines, and finally — only when the extractor
dynamically casts to `CompressionGraphExtractor` — the cluster channel. -/
def visualize (cfg : ReconstructionVisualizerConfig) (timestamp_ns : Nat)
    (b : BuilderOutputs) (extractor : Option GraphExtractorInterface)
    (st : VisualizerState) : Option (VisualizerState × List Send) :=
  let header : Header := ⟨cfg.world_frame, timestamp_ns⟩
  let s0 := visualizeGvd header b
  match extractor with
  | none =>
    let sBlocks := if cfg.show_block_outlines then visualizeBlocks header b else []
    some (st, s0 ++ sBlocks)
  | some e =>
    let g := visualizeGraph cfg header b e st
    (visualizeGvdGraph cfg.topology_marker_ns header e.gvdGraphEmpty
        b.gvdGraphMarkers g.1.published_gvd_graph).bind fun gg =>
    let st2 := { g.1 with published_gvd_graph := gg.1 }
    let sBlocks := if cfg.show_block_outlines then visualizeBlocks header b else []
    if e.isCompression then
      (visualizeGvdClusters header e.gvdGraphEmpty b.clusterMarkers st2).map
        fun c => (c.1, s0 ++ g.2 ++ gg.2 ++ sBlocks ++ c.2)
    else
      some (st2, s0 ++ g.2 ++ gg.2 ++ sBlocks)

/-- Repeated calls of `publishGraphLabels` over a sequence of node-id lists,
recording each step's updated remembered set and emitted sends. -/
def graphLabelsTrace (cfg : ReconstructionVisualizerConfig) (header : Header)
    (prior : Finset Int) : List (List Int) → List (Finset Int × List Send)
  | [] => []
  | g :: rest =>
    let r := publishGraphLabels cfg header g prior
    r :: graphLabelsTrace cfg header r.1 rest

/-- The id set of the first send's payload of a step (the delete batch of
`publishGraphLabels` and `publishFreespace` is always the first send). -/
def deleteBatchIds (sends : List Send) : Finset Int :=
  ((sends.getD 0 ⟨"", []⟩).payload.map (·.id)).toFinset

/-- A send produced by the gate always goes to the gate's channel. -/
theorem channel_of_mem_publishGate {s : Send} {ch : String}
    {p : Unit → List Marker × Bool} (h : s ∈ publishGate ch p) :
    s.channel = ch := by
  unfold publishGate at h
  by_cases hb : (p ()).2
  · simp [hb] at h
    simp [h]
  · simp [hb] at h

/-- One `publishGraphLabels` call with labels enabled updates the remembered
set to the current node-id set and emits exactly the prior-minus-current ids
as its delete batch. -/
theorem publishGraphLabels_step (cfg : ReconstructionVisualizerConfig)
    (header : Header) (hu : cfg.use_label = true) (nodes : List Int)
    (prior : Finset Int) :
    (publishGraphLabels cfg header nodes prior).1 = nodes.toFinset ∧
    deleteBatchIds (publishGraphLabels cfg header nodes prior).2 =
      prior \ nodes.toFinset := by
  constructor
  · simp [publishGraphLabels, hu, makeTextMarker, List.map_map,
      Function.comp_def]
  · simp [publishGraphLabels, hu, deleteBatchIds, makeTextMarker, List.map_map,
      Function.comp_def, Finset.sort_toFinset, Finset.sdiff_eq_filter]

/-- Each step of a `publishGraphLabels` trace is the single call applied to
the element at that index with the previous element's id set as prior. -/
theorem graphLabelsTrace_getD (cfg : ReconstructionVisualizerConfig)
    (header : Header) (hu : cfg.use_label = true) :
    ∀ (seq : List (List Int)) (prior : Finset Int) (i : Nat), i < seq.length →
      (graphLabelsTrace cfg header prior seq).getD i (∅, []) =
        publishGraphLabels cfg header (seq.getD i [])
          (if i = 0 then prior else (seq.getD (i - 1) []).toFinset) := by
  intro seq
  induction seq with
  | nil =>
    intro prior i hi
    simp at hi
  | cons g rest ih =>
    intro prior i hi
    cases i with
    | zero => simp [graphLabelsTrace]
    | succ j =>
      have h1 : (graphLabelsTrace cfg header prior (g :: rest)).getD (j + 1)
          (∅, []) =
          (graphLabelsTrace cfg header
            (publishGraphLabels cfg header g prior).1 rest).getD j (∅, []) := by
        simp [graphLabelsTrace]
      have hj : j < rest.length := by simpa using hi
      rw [h1, ih ((publishGraphLabels cfg header g prior).1) j hj]
      cases j with
      | zero =>
        simp [(publishGraphLabels_step cfg header hu g prior).1]
      | succ k => simp

/-- C1: for every sequence of current-id sets submitted to the graph-labels
namespace via `publishGraphLabels` (labels enabled), the delete batch of
step `i` consists of exactly the ids of `S (i-1) \ S i` (with `S 0 = ∅`),
the remembered `previous_labels_` after step `i` equals `S i`, and the
first tick, with an empty prior, emits no deletions. -/
theorem publishGraphLabels_reconcile (cfg : ReconstructionVisualizerConfig)
    (header : Header) (hu : cfg.use_label = true) (seq : List (List Int))
    (i : Nat) (hi : i < seq.length) :
    ((graphLabelsTrace cfg header ∅ seq).getD i (∅, [])).1 =
      (seq.getD i []).toFinset ∧
    deleteBatchIds ((graphLabelsTrace cfg header ∅ seq).getD i (∅, [])).2 =
      (if i = 0 then (∅ : Finset Int) else (seq.getD (i - 1) []).toFinset) \
        (seq.getD i []).toFinset ∧
    (i = 0 →
      deleteBatchIds ((graphLabelsTrace cfg header ∅ seq).getD i (∅, [])).2 =
        ∅) := by
  rw [graphLabelsTrace_getD cfg header hu seq ∅ i hi]
  refine ⟨(publishGraphLabels_step cfg header hu _ _).1,
    (publishGraphLabels_step cfg header hu _ _).2, ?_⟩
  intro h0
  rw [(publishGraphLabels_step cfg header hu _ _).2, h0]
  simp

/-- Concrete run of C1: submitting `{1, 2}` then `{2}` deletes exactly
id 1 at the second step. -/
theorem publishGraphLabels_reconcile_witness :
    deleteBatchIds
      ((graphLabelsTrace ({} : ReconstructionVisualizerConfig) ({} : Header)
        ∅ [[1, 2], [2]]).getD 1 (∅, [])).2 = ({1} : Finset Int) := by
  have h := publishGraphLabels_reconcile ({} : ReconstructionVisualizerConfig)
    ({} : Header) rfl [[1, 2], [2]] 1 (by decide)
  rw [h.2.1]
  decide

/-- C2 counterexample: with a remembered count of 5 and a current count of
2, `publishFreespace` emits delete markers for ids 0..4 — not for {2,3,4} —
so it deletes ids 0 and 1 that are still present in the current set. -/
theorem publishFreespace_deletes_present_id :
    ((publishFreespace ({} : ReconstructionVisualizerConfig) ({} : Header)
        { spheres := [{}, {}] } false 5).2.getD 0
        ⟨"", []⟩).payload.map (·.id) = [0, 1, 2, 3, 4] ∧
    ((publishFreespace ({} : ReconstructionVisualizerConfig) ({} : Header)
        { spheres := [{}, {}] } false 5).2.getD 0
        ⟨"", []⟩).payload.map (·.id) ≠ [2, 3, 4] := by
  constructor <;> decide

/-- C2 amended: on every `publishFreespace` call the delete batch contains
exactly the ids `[0, prior_count)` regardless of the current count (the
still-present ids are re-sent in the following spheres batch), and the
remembered count becomes the current sphere count; a prior count of 0
deletes nothing. -/
theorem publishFreespace_deletes_all_prior (cfg : ReconstructionVisualizerConfig)
    (header : Header) (b : BuilderOutputs) (edgesEmpty : Bool)
    (previous_spheres : Nat) :
    ((publishFreespace cfg header b edgesEmpty previous_spheres).2.getD 0
        ⟨"", []⟩).payload.map (·.id) =
      (List.range previous_spheres).map (fun n => (n : Int)) ∧
    (publishFreespace cfg header b edgesEmpty previous_spheres).1 =
      b.spheres.length ∧
    ((publishFreespace cfg header b edgesEmpty 0).2.getD 0
        ⟨"", []⟩).payload = [] := by
  refine ⟨?_, ?_, ?_⟩
  · simp [publishFreespace, publishGate, List.map_map, Function.comp_def]
  · simp [publishFreespace]
  · simp [publishFreespace, publishGate]

/-- C3 counterexample: when the input graph is empty, `visualizeGraph`
returns before touching any channel, so a tick whose prior label set is
non-empty (here `{1}`) and whose current set is empty emits no deletion
batch at all and leaves the prior state untouched. -/
theorem visualizeGraph_empty_input_emits_nothing :
    visualizeGraph ({} : ReconstructionVisualizerConfig) ({} : Header) {}
        { graphNodes := [] } ⟨3, {1}, true, true⟩ =
      (⟨3, {1}, true, true⟩, []) ∧
    (⟨3, {1}, true, true⟩ : VisualizerState).previous_labels ≠ ∅ := by
  constructor
  · rfl
  · decide

/-- C3 amended: the gvd-graph and gvd-cluster channels do emit a non-empty
deletion batch when their graph goes empty while the published flag is set;
but when the input scene graph itself is empty, `visualizeGraph` returns
early, so the graph, freespace and label namespaces emit nothing (no
retraction) for that tick. -/
theorem empty_current_retraction_channels
    (tns : String) (header : Header) (ms : List Marker) (flag : Bool)
    (st : VisualizerState) (cfg : ReconstructionVisualizerConfig)
    (b : BuilderOutputs) (e : GraphExtractorInterface)
    (hflag : flag = true) (hcl : st.published_gvd_clusters = true)
    (hnodes : e.graphNodes = []) :
    visualizeGvdGraph tns header true ms flag =
      some (false,
        [⟨"gvd_graph_viz",
          [makeDeleteMarker header 0 ((tns ++ "_gvd_graph") ++ "_nodes"),
           makeDeleteMarker header 0 ((tns ++ "_gvd_graph") ++ "_edges")]⟩]) ∧
    visualizeGvdClusters header true ms st =
      some ({ st with published_gvd_graph := false },
        [⟨"gvd_cluster_viz",
          [makeDeleteMarker header 0 ("gvd_cluster_graph" ++ "_nodes"),
           makeDeleteMarker header 0 ("gvd_cluster_graph" ++ "_edges")]⟩]) ∧
    visualizeGraph cfg header b e st = (st, []) := by
  subst hflag
  refine ⟨?_, ?_, ?_⟩
  · simp [visualizeGvdGraph]
  · simp [visualizeGvdClusters, hcl]
  · simp [visualizeGraph, hnodes]

/-- Concrete run of the amended C3: an emptied gvd graph with the published
flag set is actively retracted, while an empty input graph over a non-empty
prior yields a silent tick. -/
theorem empty_current_retraction_channels_witness :
    visualizeGvdGraph "topology" ({} : Header) true [] true =
      some (false,
        [⟨"gvd_graph_viz",
          [makeDeleteMarker ({} : Header) 0
             (("topology" ++ "_gvd_graph") ++ "_nodes"),
           makeDeleteMarker ({} : Header) 0
             (("topology" ++ "_gvd_graph") ++ "_edges")]⟩]) ∧
    visualizeGraph ({} : ReconstructionVisualizerConfig) ({} : Header) {}
      { graphNodes := [] } ⟨0, ∅, false, true⟩ = (⟨0, ∅, false, true⟩, []) := by
  have h := empty_current_retraction_channels "topology" ({} : Header) [] true
    ⟨0, ∅, false, true⟩ ({} : ReconstructionVisualizerConfig) {}
    { graphNodes := [] } rfl rfl rfl
  exact ⟨h.1, h.2.2⟩

/-- C4: evaluating the gvd-cluster callback at the failing input.  Starting
from a state that has published clusters, the first empty tick emits a
delete batch but leaves `published_gvd_clusters_` set (the source clears
`published_gvd_graph_` instead, line 123), so the second empty tick emits
the whole retraction again; the parallel gvd-graph channel, which clears
its own flag, stays silent on its second empty tick. -/
theorem visualizeGvdClusters_double_retraction :
    (visualizeGvdClusters ({} : Header) true [] ⟨0, ∅, true, true⟩).map
      (fun r => (r.1.published_gvd_clusters, r.2.length)) = some (true, 1) ∧
    ((visualizeGvdClusters ({} : Header) true [] ⟨0, ∅, true, true⟩).bind
        fun r => visualizeGvdClusters ({} : Header) true [] r.1).map
      (fun r => (r.1.published_gvd_clusters, r.2.length)) = some (true, 1) ∧
    visualizeGvdGraph "topology" ({} : Header) true [] false =
      some (false, []) := by
  refine ⟨rfl, rfl, rfl⟩

/-- C5: the PublishGate invokes its producer exactly once, synchronously
(the state after `publish` is exactly one producer application, and an
invocation counter threaded through the producer increases by exactly one),
and the transport is invoked exactly once when the producer returns true
and zero times when it returns false; `visualizeError` instantiates the
gate this way over the error-marker producer. -/
theorem publishGate_producer_once {σ : Type} (channel : String)
    (f : σ → σ × List Marker × Bool) (s : σ) (n : Nat)
    (cfg : ReconstructionVisualizerConfig) (t : Nat) (m : Marker) :
    (publishGateSt channel
        (fun p : σ × Nat => (((f p.1).1, p.2 + 1), (f p.1).2)) (s, n)).1 =
      ((f s).1, n + 1) ∧
    (publishGateSt channel f s).1 = (f s).1 ∧
    (publishGateSt channel f s).2 =
      (if (f s).2.2 then [⟨channel, (f s).2.1⟩] else []) ∧
    (publishGateSt channel f s).2.length =
      (if (f s).2.2 then 1 else 0) ∧
    (visualizeError cfg t m).length = (if m.numPoints = 0 then 0 else 1) := by
  refine ⟨rfl, rfl, rfl, ?_, ?_⟩
  · by_cases h : (f s).2.2 <;> simp [publishGateSt, h]
  · by_cases h : m.numPoints = 0 <;> simp [visualizeError, publishGate, h]

/-- Appending on the right leaves a failed lookup looking at the suffix. -/
theorem findChannel_append_of_none {l1 l2 : List (Nat × Channel)} {k : Nat}
    (h : findChannel l1 k = none) :
    findChannel (l1 ++ l2) k = findChannel l2 k := by
  induction l1 with
  | nil => rfl
  | cons p rest ih =>
    by_cases hp : p.1 = k
    · simp [findChannel, hp] at h
    · simp only [findChannel, hp, if_false, List.cons_append, if_neg hp] at h ⊢
      exact ih h

/-- A successful lookup exhibits the cached pair. -/
theorem mem_of_findChannel {l : List (Nat × Channel)} {k : Nat} {c : Channel}
    (h : findChannel l k = some c) : (k, c) ∈ l := by
  induction l with
  | nil => simp [findChannel] at h
  | cons p rest ih =>
    cases p with
    | mk a b =>
      by_cases ha : a = k
      · simp [findChannel, ha] at h
        subst ha
        subst h
        exact List.mem_cons_self _ _
      · simp only [findChannel, ha, if_neg ha] at h
        exact List.mem_cons_of_mem _ (ih h)

/-- Under well-formedness, the channel returned for a key carries that key. -/
theorem getOrCreate_label {r : SemanticRosPublishers} {k : Nat}
    (hwf : WellFormed r) : ((getOrCreate r k).2).label = k := by
  unfold getOrCreate
  cases h : findChannel r.pubs k with
  | none => simp
  | some c => simpa using hwf (k, c) (mem_of_findChannel h)

/-- `get_or_create` preserves well-formedness of the cache. -/
theorem wellFormed_getOrCreate {r : SemanticRosPublishers} (k : Nat)
    (hwf : WellFormed r) : WellFormed (getOrCreate r k).1 := by
  unfold getOrCreate
  cases h : findChannel r.pubs k with
  | some c => simpa using hwf
  | none =>
    intro p hp
    simp only [List.mem_append, List.mem_singleton] at hp
    rcases hp with hp | hp
    · exact hwf p hp
    · simp [hp]

/-- A cached pair survives any later `get_or_create`. -/
theorem mem_pubs_getOrCreate {r : SemanticRosPublishers}
    {p : Nat × Channel} (hp : p ∈ r.pubs) (k : Nat) :
    p ∈ (getOrCreate r k).1.pubs := by
  unfold getOrCreate
  cases h : findChannel r.pubs k with
  | some c => simpa using hp
  | none => simp [hp]

/-- A cached pair survives any sequence of `get_or_create` calls. -/
theorem mem_pubs_runRegistry {p : Nat × Channel} :
    ∀ (ks : List Nat) (r : SemanticRosPublishers), p ∈ r.pubs →
      p ∈ (runRegistry r ks).pubs := by
  intro ks
  induction ks with
  | nil =>
    intro r hp
    simpa [runRegistry] using hp
  | cons k rest ih =>
    intro r hp
    simp only [runRegistry, List.foldl_cons]
    exact ih (getOrCreate r k).1 (mem_pubs_getOrCreate hp k)

/-- A second `get_or_create` with the same key changes nothing and returns
the cached channel. -/
theorem getOrCreate_idem (r : SemanticRosPublishers) (k : Nat) :
    getOrCreate (getOrCreate r k).1 k = getOrCreate r k := by
  cases h : findChannel r.pubs k with
  | some c =>
    have h1 : getOrCreate r k = (r, c) := by unfold getOrCreate; rw [h]
    rw [h1]
    unfold getOrCreate
    rw [h]
  | none =>
    have h1 : getOrCreate r k =
        (⟨r.pubs ++ [(k, ⟨k, toString k⟩)]⟩, ⟨k, toString k⟩) := by
      unfold getOrCreate; rw [h]
    have h2 : findChannel (r.pubs ++ [(k, (⟨k, toString k⟩ : Channel))]) k =
        some ⟨k, toString k⟩ := by
      rw [findChannel_append_of_none h]
      simp [findChannel]
    rw [h1]
    unfold getOrCreate
    simp only []
    rw [h2]

/-- C6: a second `get_or_create` with the same key constructs nothing and
returns the same channel instance; calls with two distinct keys return two
distinct channels (their labels differ); and once cached, a channel
survives every later sequence of `get_or_create` calls. -/
theorem getOrCreate_registry (r : SemanticRosPublishers) (k k1 k2 : Nat)
    (hwf : WellFormed r) (hne : k1 ≠ k2) :
    getOrCreate (getOrCreate r k).1 k = getOrCreate r k ∧
    (getOrCreate (getOrCreate r k1).1 k2).2 ≠ (getOrCreate r k1).2 ∧
    ∀ p ∈ r.pubs, ∀ ks : List Nat, p ∈ (runRegistry r ks).pubs := by
  refine ⟨getOrCreate_idem r k, ?_, ?_⟩
  · intro heq
    have h1 : ((getOrCreate r k1).2).label = k1 := getOrCreate_label hwf
    have h2 : ((getOrCreate (getOrCreate r k1).1 k2).2).label = k2 :=
      getOrCreate_label (wellFormed_getOrCreate k1 hwf)
    rw [heq, h1] at h2
    exact hne h2
  · intro p hp ks
    exact mem_pubs_runRegistry ks r hp

/-- Concrete run of C6 from the empty registry with keys 3, 0 and 1. -/
theorem getOrCreate_registry_witness :
    getOrCreate (getOrCreate (⟨[]⟩ : SemanticRosPublishers) 3).1 3 =
      getOrCreate (⟨[]⟩ : SemanticRosPublishers) 3 ∧
    (getOrCreate (getOrCreate (⟨[]⟩ : SemanticRosPublishers) 0).1 1).2 ≠
      (getOrCreate (⟨[]⟩ : SemanticRosPublishers) 0).2 := by
  have h := getOrCreate_registry ⟨[]⟩ 3 0 1
    (by intro p hp; simp at hp) (by decide)
  exact ⟨h.1, h.2.1⟩

/-- A send produced by the gate always carries the producer's payload. -/
theorem payload_of_mem_publishGate {s : Send} {ch : String}
    {p : Unit → List Marker × Bool} (h : s ∈ publishGate ch p) :
    s.payload = (p ()).1 := by
  unfold publishGate at h
  by_cases hb : (p ()).2
  · simp [hb] at h
    simp [h]
  · simp [hb] at h

/-- The delete batch of `publishGraphLabels` (labels enabled) spelled out:
one `DELETE` marker per vanished id, in increasing id order, with a
default-constructed header. -/
theorem publishGraphLabels_delete_payload (cfg : ReconstructionVisualizerConfig)
    (header : Header) (nodes : List Int) (prior : Finset Int)
    (hu : cfg.use_label = true) :
    ((publishGraphLabels cfg header nodes prior).2.getD 0 ⟨"", []⟩).payload =
      ((prior.filter (fun p => p ∉ nodes.toFinset)).sort (· ≤ ·)).map
        (fun i =>
          ({ action := .DELETE, id := i, ns := cfg.topology_marker_ns ++ "_labels" } : Marker)) := by
  simp [publishGraphLabels, hu, makeTextMarker, List.map_map, Function.comp_def]

/-- C7 counterexample: at a tick stamped `(world, 5)`, the delete marker
that `publishGraphLabels` emits for the vanished id 1 carries a
default-constructed header, not the tick header. -/
theorem delete_marker_header_not_stamped :
    (((publishGraphLabels ({} : ReconstructionVisualizerConfig)
        ⟨"world", 5⟩ [2] {1, 2}).2.getD 0 ⟨"", []⟩).payload.getD 0
        ({} : Marker)).header = ({} : Header) ∧
    ({} : Header) ≠ (⟨"world", 5⟩ : Header) := by
  constructor
  · rw [publishGraphLabels_delete_payload _ _ _ _ rfl]
    have hf : (({1, 2} : Finset Int).filter
        (fun p => p ∉ ([2] : List Int).toFinset)) = {1} := by decide
    rw [hf]
    simp
  · decide

/-- C7 amended: the markers whose headers this file assigns (the three GVD
slices) carry the tick header, but the deletion markers of the graph-label
and freespace namespaces are emitted with a default-constructed header
(empty frame, zero stamp), so the elements of one tick are not all stamped
identically. -/
theorem tick_header_stamping (cfg : ReconstructionVisualizerConfig)
    (header : Header) (b : BuilderOutputs) (nodes : List Int)
    (prior : Finset Int) (edgesEmpty : Bool) (previous_spheres : Nat)
    (hu : cfg.use_label = true) :
    (∀ m ∈ ((publishGraphLabels cfg header nodes prior).2.getD 0
        ⟨"", []⟩).payload, m.header = ({} : Header)) ∧
    (∀ m ∈ ((publishFreespace cfg header b edgesEmpty
        previous_spheres).2.getD 0 ⟨"", []⟩).payload,
      m.header = ({} : Header)) ∧
    (∀ s ∈ visualizeGvd header b, ∀ m ∈ s.payload, m.header = header) := by
  refine ⟨?_, ?_, ?_⟩
  · intro m hm
    rw [publishGraphLabels_delete_payload cfg header nodes prior hu] at hm
    simp only [List.mem_map] at hm
    obtain ⟨i, _, heq⟩ := hm
    rw [← heq]
  · intro m hm
    have hp : ((publishFreespace cfg header b edgesEmpty
        previous_spheres).2.getD 0 ⟨"", []⟩).payload =
        (List.range previous_spheres).map (fun id =>
          ({ action := .DELETE, id := (id : Int), ns := cfg.topology_marker_ns ++ "_freespace" } : Marker)) := by
      simp [publishFreespace, publishGate]
    rw [hp] at hm
    simp only [List.mem_map] at hm
    obtain ⟨i, _, heq⟩ := hm
    rw [← heq]
  · intro s hs m hm
    simp only [visualizeGvd, List.mem_append] at hs
    rcases hs with (hs | hs) | hs <;>
      (rw [payload_of_mem_publishGate hs] at hm; simp at hm; rw [hm])

/-- Concrete run of the amended C7: the delete marker for id 1 carries the
default header. -/
theorem tick_header_stamping_witness :
    (((publishGraphLabels ({} : ReconstructionVisualizerConfig)
        ⟨"earth", 7⟩ [2] {1, 2}).2.getD 0 ⟨"", []⟩).payload.getD 0
        ({} : Marker)).header = ({} : Header) := by
  have h := tick_header_stamping ({} : ReconstructionVisualizerConfig)
    ⟨"earth", 7⟩ {} [2] {1, 2} false 0 rfl
  refine h.1 _ ?_
  rw [publishGraphLabels_delete_payload _ _ _ _ rfl]
  have hf : (({1, 2} : Finset Int).filter
      (fun p => p ∉ ([2] : List Int).toFinset)) = {1} := by decide
  rw [hf]
  simp

/-- The three GVD slice channels are present in a tick's sends exactly when
their built markers have points. -/
theorem visualizeGvd_channel_iff (header : Header) (b : BuilderOutputs) :
    ((∃ s ∈ visualizeGvd header b, s.channel = "esdf_viz") ↔
      b.esdfMarker.numPoints ≠ 0) ∧
    ((∃ s ∈ visualizeGvd header b, s.channel = "gvd_viz") ↔
      b.gvdMarker.numPoints ≠ 0) ∧
    ((∃ s ∈ visualizeGvd header b, s.channel = "surface_viz") ↔
      b.surfaceMarker.numPoints ≠ 0) := by
  by_cases h1 : b.esdfMarker.numPoints = 0 <;>
  by_cases h2 : b.gvdMarker.numPoints = 0 <;>
  by_cases h3 : b.surfaceMarker.numPoints = 0 <;>
    refine ⟨?_, ?_, ?_⟩ <;> simp [visualizeGvd, publishGate, h1, h2, h3]

/-- C8 counterexample: on the freespace namespace with an empty current
payload (no spheres) and no deletions pending (remembered count 0), the
tick still performs two transport sends on `freespace_viz`, both with an
empty payload, because the callbacks at lines 288-295 return true
unconditionally. -/
theorem freespace_empty_payload_sent :
    (publishFreespace ({} : ReconstructionVisualizerConfig) ({} : Header)
        {} true 0).2 =
      [⟨"freespace_viz", []⟩, ⟨"freespace_viz", []⟩,
       ⟨"freespace_graph_viz", [{}]⟩] := by
  rfl

/-- C8 amended: the GVD slice channels send exactly when their built marker
has points (empty slice means no send at all), a tick whose input graph is
empty performs no graph-channel sends, and a non-empty label payload is
always sent; but the freespace and block-outline callbacks return true
unconditionally, so `freespace_viz` receives its delete-batch and spheres
sends even when both payloads are empty and no deletions are pending, and
`voxel_block_viz` always sends when outlines are drawn. -/
theorem publish_gating (cfg : ReconstructionVisualizerConfig) (header : Header)
    (b : BuilderOutputs) (e : GraphExtractorInterface) (st : VisualizerState)
    (nodes : List Int) (prior : Finset Int) (edgesEmpty : Bool) (ps : Nat) :
    ((∃ s ∈ visualizeGvd header b, s.channel = "esdf_viz") ↔
      b.esdfMarker.numPoints ≠ 0) ∧
    ((∃ s ∈ visualizeGvd header b, s.channel = "gvd_viz") ↔
      b.gvdMarker.numPoints ≠ 0) ∧
    ((∃ s ∈ visualizeGvd header b, s.channel = "surface_viz") ↔
      b.surfaceMarker.numPoints ≠ 0) ∧
    (e.graphNodes = [] → (visualizeGraph cfg header b e st).2 = []) ∧
    (nodes ≠ [] → cfg.use_label = true →
      ∃ s ∈ (publishGraphLabels cfg header nodes prior).2,
        s.channel = "graph_label_viz" ∧ s.payload ≠ []) ∧
    ((publishFreespace cfg header b edgesEmpty ps).2.map (·.channel) =
      ["freespace_viz", "freespace_viz", "freespace_graph_viz"]) ∧
    visualizeBlocks header b ≠ [] := by
  obtain ⟨hE, hG, hS⟩ := visualizeGvd_channel_iff header b
  refine ⟨hE, hG, hS, ?_, ?_, ?_, ?_⟩
  · intro h
    simp [visualizeGraph, h]
  · intro hn hu
    refine ⟨⟨"graph_label_viz",
      nodes.map (makeTextMarker header (cfg.topology_marker_ns ++ "_labels"))⟩,
      ?_, rfl, ?_⟩
    · simp [publishGraphLabels, hu]
    · simp [hn]
  · simp [publishFreespace, publishGate]
  · simp [visualizeBlocks, publishGate]

/-- Concrete run of the amended C8: a non-empty ESDF slice is sent; an
empty input graph performs no sends; the freespace channels send on every
call. -/
theorem publish_gating_witness :
    (∃ s ∈ visualizeGvd ({} : Header)
        { esdfMarker := { numPoints := 1 } }, s.channel = "esdf_viz") ∧
    (visualizeGraph ({} : ReconstructionVisualizerConfig) ({} : Header) {}
        { graphNodes := [] } {}).2 = [] ∧
    ((publishFreespace ({} : ReconstructionVisualizerConfig) ({} : Header)
        { esdfMarker := { numPoints := 1 } } true 0).2.map (·.channel) =
      ["freespace_viz", "freespace_viz", "freespace_graph_viz"]) := by
  have h := publish_gating ({} : ReconstructionVisualizerConfig) ({} : Header)
    { esdfMarker := { numPoints := 1 } } { graphNodes := [] } {} [7] ∅ true 0
  exact ⟨h.1.mpr (by decide), h.2.2.2.1 rfl, h.2.2.2.2.2.1⟩

/-- Unfolding of the in-bounds header assignment. -/
theorem assignHeaderAt_some {ms : List Marker} {i : Nat} (h : Header)
    (hi : i < ms.length) :
    assignHeaderAt ms i h = some (ms.set i { ms[i] with header := h }) := by
  simp [assignHeaderAt, hi]

/-- The gvd-graph callback never throws when the builder returns either
nothing or at least two markers. -/
theorem visualizeGvdGraph_isSome (tns : String) (header : Header)
    (ge : Bool) (ms : List Marker) (flag : Bool)
    (hms : ms = [] ∨ 2 ≤ ms.length) :
    (visualizeGvdGraph tns header ge ms flag).isSome := by
  unfold visualizeGvdGraph
  by_cases hc : (ge && flag) = true
  · simp [hc]
  · rcases hms with h | h
    · simp [hc, h]
    · have h0 : 0 < ms.length := by omega
      have hne : ms.isEmpty = false := by
        cases ms
        · simp at h
        · rfl
      have h1 : 1 < (ms.set 0 { ms[0] with header := header }).length := by
        rw [List.length_set]
        omega
      simp [hc, hne, assignHeaderAt_some header h0, assignHeaderAt_some header h1]

/-- The gvd-cluster callback never throws when the builder returns either
nothing or at least two markers. -/
theorem visualizeGvdClusters_isSome (header : Header) (ge : Bool)
    (ms : List Marker) (st : VisualizerState)
    (hms : ms = [] ∨ 2 ≤ ms.length) :
    (visualizeGvdClusters header ge ms st).isSome := by
  unfold visualizeGvdClusters
  by_cases hc : (ge && st.published_gvd_clusters) = true
  · simp [hc]
  · rcases hms with h | h
    · simp [hc, h]
    · have h0 : 0 < ms.length := by omega
      have hne : ms.isEmpty = false := by
        cases ms
        · simp at h
        · rfl
      have h1 : 1 < (ms.set 0 { ms[0] with header := header }).length := by
        rw [List.length_set]
        omega
      simp [hc, hne, assignHeaderAt_some header h0, assignHeaderAt_some header h1]

/-- Every send of the GVD slice group goes to one of its three channels. -/
theorem channel_of_mem_visualizeGvd {header : Header} {b : BuilderOutputs}
    {s : Send} (hs : s ∈ visualizeGvd header b) :
    s.channel = "esdf_viz" ∨ s.channel = "gvd_viz" ∨
      s.channel = "surface_viz" := by
  simp only [visualizeGvd, List.mem_append] at hs
  rcases hs with (hs | hs) | hs
  · exact Or.inl (channel_of_mem_publishGate hs)
  · exact Or.inr (Or.inl (channel_of_mem_publishGate hs))
  · exact Or.inr (Or.inr (channel_of_mem_publishGate hs))

/-- The block-outline send goes to its own channel. -/
theorem channel_of_mem_visualizeBlocks {header : Header} {b : BuilderOutputs}
    {s : Send} (hs : s ∈ visualizeBlocks header b) :
    s.channel = "voxel_block_viz" := by
  unfold visualizeBlocks at hs
  exact channel_of_mem_publishGate hs

/-- Every send of `publishGraphLabels` goes to the graph-label channel. -/
theorem channel_of_mem_publishGraphLabels {cfg : ReconstructionVisualizerConfig}
    {header : Header} {nodes : List Int} {prior : Finset Int} {s : Send}
    (hs : s ∈ (publishGraphLabels cfg header nodes prior).2) :
    s.channel = "graph_label_viz" := by
  unfold publishGraphLabels at hs
  cases hv : cfg.use_label
  · simp [hv] at hs
  · simp only [hv, Bool.not_true, Bool.false_eq_true, if_false,
      List.mem_cons, List.not_mem_nil, or_false] at hs
    rcases hs with hs | hs <;> simp [hs]

/-- Every send of `publishFreespace` goes to a freespace channel. -/
theorem channel_of_mem_publishFreespace {cfg : ReconstructionVisualizerConfig}
    {header : Header} {b : BuilderOutputs} {ee : Bool} {ps : Nat} {s : Send}
    (hs : s ∈ (publishFreespace cfg header b ee ps).2) :
    s.channel = "freespace_viz" ∨ s.channel = "freespace_graph_viz" := by
  simp only [publishFreespace, List.mem_append] at hs
  rcases hs with (hs | hs) | hs
  · exact Or.inl (channel_of_mem_publishGate hs)
  · exact Or.inl (channel_of_mem_publishGate hs)
  · exact Or.inr (channel_of_mem_publishGate hs)

/-- Every send of `visualizeGraph` goes to a graph-derived channel. -/
theorem channel_of_mem_visualizeGraph {cfg : ReconstructionVisualizerConfig}
    {header : Header} {b : BuilderOutputs} {e : GraphExtractorInterface}
    {st : VisualizerState} {s : Send}
    (hs : s ∈ (visualizeGraph cfg header b e st).2) :
    s.channel = "graph_viz" ∨ s.channel = "freespace_viz" ∨
      s.channel = "freespace_graph_viz" ∨ s.channel = "graph_label_viz" := by
  unfold visualizeGraph at hs
  cases hn : e.graphNodes.isEmpty
  · simp only [hn, Bool.false_eq_true, if_false, List.mem_append] at hs
    rcases hs with (hs | hs) | hs
    · exact Or.inl (channel_of_mem_publishGate hs)
    · rcases channel_of_mem_publishFreespace hs with h | h
      · exact Or.inr (Or.inl h)
      · exact Or.inr (Or.inr (Or.inl h))
    · exact Or.inr (Or.inr (Or.inr (channel_of_mem_publishGraphLabels hs)))
  · simp [hn] at hs

/-- Every send of the gvd-graph callback goes to its own channel. -/
theorem channel_of_visualizeGvdGraph {tns : String} {header : Header}
    {ge : Bool} {ms : List Marker} {flag : Bool} {r : Bool × List Send}
    (h : visualizeGvdGraph tns header ge ms flag = some r) :
    ∀ s ∈ r.2, s.channel = "gvd_graph_viz" := by
  unfold visualizeGvdGraph at h
  by_cases hc : (ge && flag) = true
  · simp only [hc, if_true, Option.some.injEq] at h
    intro s hs
    rw [← h] at hs
    simp only [List.mem_singleton] at hs
    simp [hs]
  · by_cases he : ms.isEmpty = true
    · simp only [hc, Bool.false_eq_true, if_false, he, if_true,
        Option.some.injEq] at h
      intro s hs
      rw [← h] at hs
      simp at hs
    · cases h0 : assignHeaderAt ms 0 header with
      | none => simp [hc, he, h0] at h
      | some m1 =>
        cases h1 : assignHeaderAt m1 1 header with
        | none => simp [hc, he, h0, h1] at h
        | some m2 =>
          simp only [hc, he, h0, h1, Bool.false_eq_true, if_false,
            Option.some_bind, Option.map_some', Option.some.injEq] at h
          intro s hs
          rw [← h] at hs
          simp only [List.mem_singleton] at hs
          simp [hs]

/-- A channel equality transfers to a disequality with a distinct literal. -/
theorem ne_cluster_of_channel {s : Send} {c : String}
    (h : s.channel = c) (hc : c ≠ "gvd_cluster_viz") :
    s.channel ≠ "gvd_cluster_viz" := by
  rw [h]
  exact hc

/-- C9: when the extractor is absent or is not the specialized compression
extractor, the tick still completes; the cluster channel is silently absent
while every other channel is processed (the ESDF channel, for one, still
sends whenever its slice has points); an empty input graph never fails the
pass. -/
theorem visualize_absent_capability (cfg : ReconstructionVisualizerConfig)
    (t : Nat) (b : BuilderOutputs) (e : GraphExtractorInterface)
    (st : VisualizerState) (hnc : e.isCompression = false)
    (hgg : b.gvdGraphMarkers = [] ∨ 2 ≤ b.gvdGraphMarkers.length) :
    (∃ st2 sends, visualize cfg t b (some e) st = some (st2, sends) ∧
      ∀ s ∈ sends, s.channel ≠ "gvd_cluster_viz") ∧
    (∃ sends0, visualize cfg t b none st = some (st, sends0) ∧
      ∀ s ∈ sends0, s.channel ≠ "gvd_cluster_viz") ∧
    (b.esdfMarker.numPoints ≠ 0 →
      ∃ s ∈ visualizeGvd ⟨cfg.world_frame, t⟩ b, s.channel = "esdf_viz") := by
  refine ⟨?_, ?_, ?_⟩
  · have hsome := visualizeGvdGraph_isSome cfg.topology_marker_ns
      ⟨cfg.world_frame, t⟩ e.gvdGraphEmpty b.gvdGraphMarkers
      (visualizeGraph cfg ⟨cfg.world_frame, t⟩ b e st).1.published_gvd_graph hgg
    obtain ⟨gg, hgg2⟩ := Option.isSome_iff_exists.mp hsome
    have hv : visualize cfg t b (some e) st =
        some ({ (visualizeGraph cfg ⟨cfg.world_frame, t⟩ b e st).1 with
            published_gvd_graph := gg.1 },
          visualizeGvd ⟨cfg.world_frame, t⟩ b ++
            (visualizeGraph cfg ⟨cfg.world_frame, t⟩ b e st).2 ++ gg.2 ++
            (if cfg.show_block_outlines then
              visualizeBlocks ⟨cfg.world_frame, t⟩ b else [])) := by
      simp only [visualize]
      rw [hgg2]
      simp [hnc]
    refine ⟨_, _, hv, ?_⟩
    intro s hs
    simp only [List.mem_append] at hs
    rcases hs with ((hs | hs) | hs) | hs
    · rcases channel_of_mem_visualizeGvd hs with h | h | h <;>
        exact ne_cluster_of_channel h (by decide)
    · rcases channel_of_mem_visualizeGraph hs with h | h | h | h <;>
        exact ne_cluster_of_channel h (by decide)
    · exact ne_cluster_of_channel (channel_of_visualizeGvdGraph hgg2 s hs)
        (by decide)
    · by_cases hb : cfg.show_block_outlines = true
      · rw [if_pos hb] at hs
        exact ne_cluster_of_channel (channel_of_mem_visualizeBlocks hs)
          (by decide)
      · rw [if_neg hb] at hs
        simp at hs
  · refine ⟨visualizeGvd ⟨cfg.world_frame, t⟩ b ++
      (if cfg.show_block_outlines then
        visualizeBlocks ⟨cfg.world_frame, t⟩ b else []), rfl, ?_⟩
    intro s hs
    rcases List.mem_append.mp hs with hs | hs
    · rcases channel_of_mem_visualizeGvd hs with h | h | h <;>
        exact ne_cluster_of_channel h (by decide)
    · by_cases hb : cfg.show_block_outlines = true
      · rw [if_pos hb] at hs
        exact ne_cluster_of_channel (channel_of_mem_visualizeBlocks hs)
          (by decide)
      · rw [if_neg hb] at hs
        simp at hs
  · intro h
    exact (visualizeGvd_channel_iff ⟨cfg.world_frame, t⟩ b).1.mpr h

/-- Concrete run of C9: a tick with a non-compression extractor completes. -/
theorem visualize_absent_capability_witness :
    (visualize ({} : ReconstructionVisualizerConfig) 0 {}
      (some ({} : GraphExtractorInterface)) ({} : VisualizerState)).isSome := by
  have h := visualize_absent_capability ({} : ReconstructionVisualizerConfig)
    0 {} {} {} rfl (Or.inl rfl)
  obtain ⟨st2, sends, heq, _⟩ := h.1
  rw [heq]
  rfl

/-- C10: in the gvd-graph and gvd-cluster callbacks, under the precondition
that the builder returns an empty array or one with at least two markers,
the index-0/index-1 header assignments are in bounds and the out-of-range
branch is unreachable; a builder output of exactly one marker makes the
index-1 access go out of bounds. -/
theorem gvd_callback_index_safety :
    (∀ (tns : String) (header : Header) (ms : List Marker) (ge flag : Bool)
        (st : VisualizerState), (ms = [] ∨ 2 ≤ ms.length) →
      (visualizeGvdGraph tns header ge ms flag).isSome ∧
      (visualizeGvdClusters header ge ms st).isSome) ∧
    (∀ (tns : String) (header : Header) (m : Marker) (st : VisualizerState),
      visualizeGvdGraph tns header false [m] false = none ∧
      visualizeGvdClusters header false [m] st = none) := by
  constructor
  · intro tns header ms ge flag st hms
    exact ⟨visualizeGvdGraph_isSome tns header ge ms flag hms,
      visualizeGvdClusters_isSome header ge ms st hms⟩
  · intro tns header m st
    constructor
    · simp [visualizeGvdGraph, assignHeaderAt]
    · simp [visualizeGvdClusters, assignHeaderAt]

/-- Concrete run of C10: an empty builder output is safe on both callbacks. -/
theorem gvd_callback_index_safety_witness :
    (visualizeGvdGraph "topology" ({} : Header) false [] false).isSome ∧
    (visualizeGvdClusters ({} : Header) false [] ({} : VisualizerState)).isSome := by
  exact gvd_callback_index_safety.1 "topology" {} [] false false {}
    (Or.inl rfl)

end hydra
